import Mathlib

/-!
Verification of the SA32 driver session layer (`sa32_driver.py`) against its
natural-language specification.

The development is a shallow embedding of the driver:

* the fallback `BinaryPayloadBuilder` / `BinaryPayloadDecoder` float codec is
  embedded over 32-bit IEEE-754 bit patterns represented as `Nat` (the codec
  only moves bytes around, so the bit pattern is the faithful representation);
* the mutable parts of an `SA32Driver` instance are a `DriverState` record and
  every operation is a pure function `DriverState -> result x DriverState x trace`,
  where the trace records callback dispatches, lock acquisitions/releases and
  reconnect sleeps in source order;
* the external transport (pymodbus client) is an oracle `WorldModel` giving the
  outcome of each transport call;
* Python exceptions become an `Except SA32Error` result; `try/except` blocks are
  embedded by matching on the raised error exactly as the handlers do.
-/

set_option maxRecDepth 4096

namespace SA32

/-- Byte order selector for the payload codec: Python byteorder characters
`>` (big) and `<` (little). -/
inductive ByteOrder where
  | big
  | little
deriving Repr, DecidableEq

/-- Embedding of `EquipmentError` dataclass: the per-session LastError slot. -/
structure EquipmentError where
  status : Bool := false
  code : Int := 0
  source : String := ""
deriving Repr, DecidableEq

/-- The no-error value `EquipmentError()` (all defaults). -/
def EquipmentError.noError : EquipmentError := {}

/-- The SA32 exception taxonomy (plus the `ImportError` raised when pymodbus is
missing and mock mode is off). -/
inductive SA32Error where
  | connectionError (msg : String)
  | communicationError (msg : String)
  | configurationError (msg : String)
  | importError (msg : String)
deriving Repr, DecidableEq

/-- Observable events of one operation, in source order: callback dispatches
(`_trigger_callbacks`), lock acquisition/release of the session RLock
(entry/exit of each `with self._lock` block), reconnect sleeps, and each
invocation of the transport's `connect()` (open attempt). -/
inductive Event where
  | lockAcquire
  | lockRelease
  | onConnect
  | onDisconnect
  | onError (e : EquipmentError)
  | onDataReceived (address : Nat) (values : List Nat)
  | sleep (delay : Int)
  | transportOpen
deriving Repr, DecidableEq

/-- True exactly on the two lock events. -/
def Event.isLock : Event → Bool
  | .lockAcquire => true
  | .lockRelease => true
  | _ => false

/-- True exactly on transport open attempts. -/
def Event.isOpen : Event → Bool
  | .transportOpen => true
  | _ => false

/-- True exactly on Error-event dispatches. -/
def Event.isErrorEvent : Event → Bool
  | .onError _ => true
  | _ => false

/-- Result discriminators for `Except SA32Error`. -/
def isOkB {α : Type} : Except SA32Error α → Bool
  | .ok _ => true
  | .error _ => false

def isConnectionErrorB {α : Type} : Except SA32Error α → Bool
  | .error (.connectionError _) => true
  | _ => false

def isCommunicationErrorB {α : Type} : Except SA32Error α → Bool
  | .error (.communicationError _) => true
  | _ => false

def isConfigurationErrorB {α : Type} : Except SA32Error α → Bool
  | .error (.configurationError _) => true
  | _ => false

/-! ## Float codec (fallback `BinaryPayloadBuilder` / `BinaryPayloadDecoder`)

A float32 value is represented by its bit pattern `b < 2^32`.
`struct.pack` with format `>f` yields the four bytes of the pattern most
significant first; `<f` yields them least significant first. -/

/-- Bytes produced by `struct.pack` for one float32 bit pattern, per byte order. -/
def packFloat : ByteOrder → Nat → List Nat
  | .big, b => [b / 16777216 % 256, b / 65536 % 256, b / 256 % 256, b % 256]
  | .little, b => [b % 256, b / 256 % 256, b / 65536 % 256, b / 16777216 % 256]

/-- Embedding of `struct.unpack` of the first four payload bytes back into the bit pattern. -/
def unpackFloat : ByteOrder → List Nat → Nat
  | .big, bs => bs.getD 0 0 * 16777216 + bs.getD 1 0 * 65536 + bs.getD 2 0 * 256 + bs.getD 3 0
  | .little, bs => bs.getD 0 0 + bs.getD 1 0 * 256 + bs.getD 2 0 * 65536 + bs.getD 3 0 * 16777216

/-- Embedding of `BinaryPayloadBuilder.to_registers`: split the payload into 16-bit words,
each word from two consecutive bytes big-endian (`int.from_bytes(..., 'big')`);
a trailing lone byte yields its own value. -/
def to_registers : List Nat → List Nat
  | [] => []
  | [b0] => [b0]
  | b0 :: b1 :: rest => (b0 * 256 + b1) :: to_registers rest

/-- Embedding of `BinaryPayloadDecoder.fromRegisters` payload reconstruction:
`reg.to_bytes(2, 'big')` for each register, concatenated. -/
def registersToPayload : List Nat → List Nat
  | [] => []
  | r :: rest => r / 256 :: r % 256 :: registersToPayload rest

/-- Embedding of `BinaryPayloadBuilder(byteorder, wordorder).add_32bit_float(v).to_registers()`:
encode one float32 bit pattern into two 16-bit registers.  The fallback builder
stores the word order but never uses it. -/
def encode_32bit_float (bo : ByteOrder) (_wordorder : ByteOrder) (b : Nat) : List Nat :=
  to_registers (packFloat bo b)

/-- Embedding of `BinaryPayloadDecoder.fromRegisters(regs, byteorder, wordorder).decode_32bit_float()`:
decode two registers back into the float32 bit pattern.  The fallback decoder
stores the word order but never uses it. -/
def decode_32bit_float (bo : ByteOrder) (_wordorder : ByteOrder) (regs : List Nat) : Nat :=
  unpackFloat bo (registersToPayload regs)

/-- A float32 bit pattern is finite iff its exponent field is not all ones. -/
def isFiniteF32 (b : Nat) : Prop := b / 8388608 % 256 ≠ 255

instance (b : Nat) : Decidable (isFiniteF32 b) := by
  unfold isFiniteF32; infer_instance

/-! ## Mock register map (`self._mock_registers`, a Python dict) -/

/-- Dictionary lookup. -/
def mapLookup : List (Nat × Nat) → Nat → Option Nat
  | [], _ => none
  | (k, v) :: t, a => if k = a then some v else mapLookup t a

/-- Dictionary store `m[a] = v` (replace if present, append otherwise). -/
def mapInsert : List (Nat × Nat) → Nat → Nat → List (Nat × Nat)
  | [], a, v => [(a, v)]
  | (k, w) :: t, a, v => if k = a then (a, v) :: t else (k, w) :: mapInsert t a v


/-! ## Driver state and transport oracle -/

/-- Embedding of `ModbusProtocol` enum. -/
inductive ModbusProtocol where
  | TCP
  | RTU
deriving Repr, DecidableEq

/-- The mutable state of one `SA32Driver` instance together with the
configuration fields the session logic reads.  `client` models whether
`self._client` is not `None` (the transport handle is present); `open_calls`
counts how many times a transport handle's `connect()` has been invoked
(instrumentation used to state attempt-count properties).  Transport-only
configuration (host, port, baudrate, parity, stopbits, bytesize, timeout) is
consumed solely by the external transport, which the `WorldModel` oracle
abstracts, so it is not repeated here. -/
structure DriverState where
  protocol : ModbusProtocol
  slave_id : Int
  auto_reconnect : Bool
  reconnect_delay : Int
  max_reconnect_attempts : Nat
  mock_mode : Bool
  connected : Bool
  client : Bool
  mock_registers : List (Nat × Nat)
  last_error : EquipmentError
  open_calls : Nat
deriving Repr, DecidableEq

/-- Outcome of one transport register call as the driver observes it:
`ok regs` is a response with `isError()` false (for reads `regs` is
`response.registers`; writes ignore it); `errorResponse exc` is a response with
`isError()` true, `exc` being the `exception_code` attribute when present;
`raisesModbus`/`raisesOther` model the call raising a `ModbusException` or any
other exception, carrying `str(e)`. -/
inductive ModbusResponse where
  | ok (registers : List Nat)
  | errorResponse (exception_code : Option Int)
  | raisesModbus (msg : String)
  | raisesOther (msg : String)
deriving Repr, DecidableEq

/-- Oracle describing the external world: the pymodbus transport's behaviour on
each call, and the random source used by the mock backend.  `open_ok n` is the
result of the n-th (0-based) `client.connect()`; `rand a` is the value
`random.randint(0, 65535)` would contribute for a never-read mock address `a`
(each address is generated at most once, so indexing by address is faithful). -/
structure WorldModel where
  open_ok : Nat → Bool
  close_raises : Bool
  read_holding_response : Nat → Nat → ModbusResponse
  read_input_response : Nat → Nat → ModbusResponse
  write_response : Nat → Nat → ModbusResponse
  write_multi_response : Nat → List Nat → ModbusResponse
  rand : Nat → Nat

/-- Result of one driver operation: Python return value or raised exception,
the post-state, and the emitted event trace. -/
abbrev OpResult (α : Type) := Except SA32Error α × DriverState × List Event

/-! ## Connection lifecycle (`connect`, `disconnect`, `_ensure_connected`,
`_attempt_reconnect`) -/

/-- Embedding of `SA32Driver.connect`.  Branches in source order: already connected
(warning, returns True); mock mode (set connected, fire Connect); otherwise
build the transport handle (`self._client = ...`, handle present from here on)
and try to open it.  An open failure raises `SA32ConnectionError` inside the
`try`, is caught by `except Exception`, records LastError (code -1), fires the
Error event and re-raises as `SA32ConnectionError`. -/
def connect (o : WorldModel) (s : DriverState) : OpResult Bool :=
  if s.connected then
    (.ok true, s, [.lockAcquire, .lockRelease])
  else if s.mock_mode then
    (.ok true, { s with connected := true }, [.lockAcquire, .onConnect, .lockRelease])
  else
    let s1 := { s with client := true, open_calls := s.open_calls + 1 }
    if o.open_ok s.open_calls then
      (.ok true, { s1 with connected := true, last_error := .noError },
        [.lockAcquire, .transportOpen, .onConnect, .lockRelease])
    else
      let msg := "Erreur lors de la connexion: Impossible de se connecter"
      let err : EquipmentError := ⟨true, -1, msg⟩
      (.error (.connectionError msg), { s1 with last_error := err },
        [.lockAcquire, .transportOpen, .onError err, .lockRelease])

/-- Embedding of `SA32Driver.disconnect`.  No-op with a warning when not connected; mock
mode only flips the flag; otherwise closes the transport.  When `close()`
raises, the `except` clause still forces `connected := false` and drops the
handle but does not fire the Disconnect event. -/
def disconnect (o : WorldModel) (s : DriverState) : OpResult Unit :=
  if ¬ s.connected then
    (.ok (), s, [.lockAcquire, .lockRelease])
  else if s.mock_mode then
    (.ok (), { s with connected := false }, [.lockAcquire, .onDisconnect, .lockRelease])
  else if s.client && o.close_raises then
    (.ok (), { s with connected := false, client := false }, [.lockAcquire, .lockRelease])
  else
    (.ok (), { s with connected := false, client := false },
      [.lockAcquire, .onDisconnect, .lockRelease])

/-- The body of `SA32Driver._attempt_reconnect`, recursing on the number of
remaining attempts (`for attempt in range(1, max_reconnect_attempts + 1)`).
`connect()` only raises `SA32ConnectionError`, which the loop catches; between
failed attempts (`attempt < max`, i.e. some attempt remains) the thread sleeps
for `reconnect_delay`. -/
def attemptLoop (o : WorldModel) : Nat → DriverState → Bool × DriverState × List Event
  | 0, s => (false, s, [])
  | n + 1, s =>
    match connect o s with
    | (.ok _, s1, ev) => (true, s1, ev)
    | (.error _, s1, ev) =>
      let sleepEv : List Event := if 0 < n then [.sleep s1.reconnect_delay] else []
      let r := attemptLoop o n s1
      (r.1, r.2.1, ev ++ sleepEv ++ r.2.2)

/-- Embedding of `SA32Driver._attempt_reconnect`: returns True on the first successful
`connect()`, False after exhausting `max_reconnect_attempts` attempts. -/
def attempt_reconnect (o : WorldModel) (s : DriverState) : Bool × DriverState × List Event :=
  attemptLoop o s.max_reconnect_attempts s

/-- Embedding of `SA32Driver._ensure_connected`.  When disconnected with auto-reconnect
enabled it calls `_attempt_reconnect()` and discards the boolean result, so it
returns normally even after exhausting every attempt (the source's docstring
says this case raises `SA32ConnectionError`).  When auto-reconnect is disabled
it records LastError, fires the Error event and raises. -/
def ensure_connected (o : WorldModel) (s : DriverState) : OpResult Unit :=
  if s.connected then
    (.ok (), s, [])
  else if s.auto_reconnect then
    let r := attempt_reconnect o s
    (.ok (), r.2.1, r.2.2)
  else
    let msg := "Aucune connexion active. Appelez connect() d abord."
    let err : EquipmentError := ⟨true, -1, msg⟩
    (.error (.connectionError msg), { s with last_error := err }, [.onError err])

/-! ## Mock backend -/

/-- Loop body of `SA32Driver._mock_read_registers`: for each address from
`address` to `address + count - 1`, lazily generate a random 16-bit value if
the address is unseen, then append the stored value. -/
def mockReadLoop (o : WorldModel) : Nat → Nat → List (Nat × Nat) → List Nat × List (Nat × Nat)
  | _address, 0, m => ([], m)
  | address, c + 1, m =>
    let m1 := match mapLookup m address with
      | some _ => m
      | none => mapInsert m address (o.rand address % 65536)
    let v := (mapLookup m1 address).getD 0
    let r := mockReadLoop o (address + 1) c m1
    (v :: r.1, r.2)

/-- Embedding of `SA32Driver._mock_read_registers`. -/
def mock_read_registers (o : WorldModel) (s : DriverState) (address count : Nat) :
    List Nat × DriverState :=
  let r := mockReadLoop o address count s.mock_registers
  (r.1, { s with mock_registers := r.2 })

/-- Embedding of `SA32Driver._mock_write_register`: store and return True. -/
def mock_write_register (s : DriverState) (address value : Nat) : Bool × DriverState :=
  (true, { s with mock_registers := mapInsert s.mock_registers address value })

/-- Loop of the mock branch of `write_registers`:
`for i, value in enumerate(values): self._mock_write_register(address + i, value)`. -/
def mockWriteLoop : List (Nat × Nat) → Nat → List Nat → List (Nat × Nat)
  | m, _address, [] => m
  | m, address, v :: vs => mockWriteLoop (mapInsert m address v) (address + 1) vs

/-! ## Register operations -/

/-- Embedding of `SA32Driver.read_holding_registers`.  `_ensure_connected()` runs before the
`with self._lock` block.  In the non-mock `try` block: a response with
`isError()` true sets LastError to the device exception code (or -1) and raises
`SA32CommunicationError`; that exception is not a `ModbusException`, so the
generic `except Exception` handler catches it, overwrites LastError with code
-3, fires the Error event and re-raises `SA32CommunicationError`.  A raised
`ModbusException` is classified with code -2, any other exception with code -3.
On success LastError is reset to no-error and DataReceived fires. -/
def read_holding_registers (o : WorldModel) (s : DriverState) (address count : Nat) :
    OpResult (List Nat) :=
  match ensure_connected o s with
  | (.error e, s1, ev) => (.error e, s1, ev)
  | (.ok _, s1, ev0) =>
    if s1.mock_mode then
      let r := mock_read_registers o s1 address count
      (.ok r.1, r.2, ev0 ++ [.lockAcquire, .onDataReceived address r.1, .lockRelease])
    else
      match o.read_holding_response address count with
      | .ok regs =>
        (.ok regs, { s1 with last_error := .noError },
          ev0 ++ [.lockAcquire, .onDataReceived address regs, .lockRelease])
      | .errorResponse exc =>
        let msg1 := "Erreur Modbus lors de la lecture: response"
        let s2 := { s1 with last_error := ⟨true, exc.getD (-1), msg1⟩ }
        let msg2 := "Erreur inattendue lors de la lecture: " ++ msg1
        let err : EquipmentError := ⟨true, -3, msg2⟩
        (.error (.communicationError msg2), { s2 with last_error := err },
          ev0 ++ [.lockAcquire, .onError err, .lockRelease])
      | .raisesModbus m =>
        let msg := "Exception Modbus: " ++ m
        let err : EquipmentError := ⟨true, -2, msg⟩
        (.error (.communicationError msg), { s1 with last_error := err },
          ev0 ++ [.lockAcquire, .onError err, .lockRelease])
      | .raisesOther m =>
        let msg := "Erreur inattendue lors de la lecture: " ++ m
        let err : EquipmentError := ⟨true, -3, msg⟩
        (.error (.communicationError msg), { s1 with last_error := err },
          ev0 ++ [.lockAcquire, .onError err, .lockRelease])

/-- Embedding of `SA32Driver.read_input_registers`: same structure as the holding-register
read, delegating to the transport's input-register call. -/
def read_input_registers (o : WorldModel) (s : DriverState) (address count : Nat) :
    OpResult (List Nat) :=
  match ensure_connected o s with
  | (.error e, s1, ev) => (.error e, s1, ev)
  | (.ok _, s1, ev0) =>
    if s1.mock_mode then
      let r := mock_read_registers o s1 address count
      (.ok r.1, r.2, ev0 ++ [.lockAcquire, .onDataReceived address r.1, .lockRelease])
    else
      match o.read_input_response address count with
      | .ok regs =>
        (.ok regs, { s1 with last_error := .noError },
          ev0 ++ [.lockAcquire, .onDataReceived address regs, .lockRelease])
      | .errorResponse exc =>
        let msg1 := "Erreur Modbus lors de la lecture: response"
        let s2 := { s1 with last_error := ⟨true, exc.getD (-1), msg1⟩ }
        let msg2 := "Erreur inattendue lors de la lecture: " ++ msg1
        let err : EquipmentError := ⟨true, -3, msg2⟩
        (.error (.communicationError msg2), { s2 with last_error := err },
          ev0 ++ [.lockAcquire, .onError err, .lockRelease])
      | .raisesModbus m =>
        let msg := "Exception Modbus: " ++ m
        let err : EquipmentError := ⟨true, -2, msg⟩
        (.error (.communicationError msg), { s1 with last_error := err },
          ev0 ++ [.lockAcquire, .onError err, .lockRelease])
      | .raisesOther m =>
        let msg := "Erreur inattendue lors de la lecture: " ++ m
        let err : EquipmentError := ⟨true, -3, msg⟩
        (.error (.communicationError msg), { s1 with last_error := err },
          ev0 ++ [.lockAcquire, .onError err, .lockRelease])

/-- Embedding of `SA32Driver.write_register`.  Mock mode stores directly (no DataReceived
event).  Non-mock error handling mirrors the reads, including the re-catch of
the internally raised `SA32CommunicationError` by `except Exception`. -/
def write_register (o : WorldModel) (s : DriverState) (address value : Nat) : OpResult Bool :=
  match ensure_connected o s with
  | (.error e, s1, ev) => (.error e, s1, ev)
  | (.ok _, s1, ev0) =>
    if s1.mock_mode then
      let r := mock_write_register s1 address value
      (.ok r.1, r.2, ev0 ++ [.lockAcquire, .lockRelease])
    else
      match o.write_response address value with
      | .ok _ =>
        (.ok true, { s1 with last_error := .noError }, ev0 ++ [.lockAcquire, .lockRelease])
      | .errorResponse exc =>
        let msg1 := "Erreur Modbus lors de la presse ecriture: response"
        let s2 := { s1 with last_error := ⟨true, exc.getD (-1), msg1⟩ }
        let msg2 := "Erreur inattendue lors de la presse ecriture: " ++ msg1
        let err : EquipmentError := ⟨true, -3, msg2⟩
        (.error (.communicationError msg2), { s2 with last_error := err },
          ev0 ++ [.lockAcquire, .onError err, .lockRelease])
      | .raisesModbus m =>
        let msg := "Exception Modbus: " ++ m
        let err : EquipmentError := ⟨true, -2, msg⟩
        (.error (.communicationError msg), { s1 with last_error := err },
          ev0 ++ [.lockAcquire, .onError err, .lockRelease])
      | .raisesOther m =>
        let msg := "Erreur inattendue lors de la presse ecriture: " ++ m
        let err : EquipmentError := ⟨true, -3, msg⟩
        (.error (.communicationError msg), { s1 with last_error := err },
          ev0 ++ [.lockAcquire, .onError err, .lockRelease])

/-- Embedding of `SA32Driver.write_registers` (multiple).  Mock mode writes each value at
consecutive addresses; non-mock error handling as in `write_register`. -/
def write_registers (o : WorldModel) (s : DriverState) (address : Nat) (values : List Nat) :
    OpResult Bool :=
  match ensure_connected o s with
  | (.error e, s1, ev) => (.error e, s1, ev)
  | (.ok _, s1, ev0) =>
    if s1.mock_mode then
      (.ok true, { s1 with mock_registers := mockWriteLoop s1.mock_registers address values },
        ev0 ++ [.lockAcquire, .lockRelease])
    else
      match o.write_multi_response address values with
      | .ok _ =>
        (.ok true, { s1 with last_error := .noError }, ev0 ++ [.lockAcquire, .lockRelease])
      | .errorResponse exc =>
        let msg1 := "Erreur Modbus lors de la presse ecriture: response"
        let s2 := { s1 with last_error := ⟨true, exc.getD (-1), msg1⟩ }
        let msg2 := "Erreur inattendue lors de la presse ecriture: " ++ msg1
        let err : EquipmentError := ⟨true, -3, msg2⟩
        (.error (.communicationError msg2), { s2 with last_error := err },
          ev0 ++ [.lockAcquire, .onError err, .lockRelease])
      | .raisesModbus m =>
        let msg := "Exception Modbus: " ++ m
        let err : EquipmentError := ⟨true, -2, msg⟩
        (.error (.communicationError msg), { s1 with last_error := err },
          ev0 ++ [.lockAcquire, .onError err, .lockRelease])
      | .raisesOther m =>
        let msg := "Erreur inattendue lors de la presse ecriture: " ++ m
        let err : EquipmentError := ⟨true, -3, msg⟩
        (.error (.communicationError msg), { s1 with last_error := err },
          ev0 ++ [.lockAcquire, .onError err, .lockRelease])

/-- Embedding of `SA32Driver.clear_error`. -/
def clear_error (s : DriverState) : DriverState := { s with last_error := .noError }

/-! ## Construction (`__init__` / `_validate_config`) -/

/-- Python `str.upper()` (ASCII suffices for the validated inputs; defined
over the character list so that it computes by structural recursion). -/
def pyUpper (str : String) : String := ⟨str.data.map Char.toUpper⟩

/-- The serial baud rates accepted by `_validate_config`. -/
def valid_baudrates : List Int := [1200, 2400, 4800, 9600, 19200, 38400, 57600, 115200]

/-- Embedding of `SA32Driver._validate_config`, checks in source order.  The `timeout`
constructor argument is never passed to it and is not validated anywhere. -/
def validate_config (protocol : String) (slave_id baudrate bytesize : Int)
    (parity : String) (stopbits : Int) : Except SA32Error Unit :=
  if ¬ (pyUpper protocol = "TCP" ∨ pyUpper protocol = "RTU") then
    .error (.configurationError "Protocole invalide")
  else if ¬ (1 ≤ slave_id ∧ slave_id ≤ 247) then
    .error (.configurationError "Slave ID invalide")
  else if baudrate ∉ valid_baudrates then
    .error (.configurationError "Baudrate invalide")
  else if ¬ (bytesize = 7 ∨ bytesize = 8) then
    .error (.configurationError "Bytesize invalide")
  else if ¬ (pyUpper parity = "N" ∨ pyUpper parity = "E" ∨ pyUpper parity = "O") then
    .error (.configurationError "Parite invalide")
  else if ¬ (stopbits = 1 ∨ stopbits = 2) then
    .error (.configurationError "Stop bits invalide")
  else
    .ok ()

/-- Embedding of `SA32Driver.__init__`: pymodbus availability check, then eager validation,
then the fully initialised session state (fresh mock map, no-error LastError,
no transport handle, Disconnected).  `timeout` is stored but never validated. -/
def mkDriver (pymodbus_available : Bool) (protocol : String) (slave_id baudrate : Int)
    (parity : String) (stopbits bytesize timeout : Int) (auto_reconnect : Bool)
    (reconnect_delay : Int) (max_reconnect_attempts : Nat) (mock_mode : Bool) :
    Except SA32Error DriverState :=
  if ¬ pymodbus_available ∧ ¬ mock_mode then
    .error (.importError "Le module pymodbus est requis")
  else
    match validate_config protocol slave_id baudrate bytesize parity stopbits with
    | .error e => .error e
    | .ok _ =>
      let _ := timeout
      .ok {
        protocol := if pyUpper protocol = "TCP" then .TCP else .RTU
        slave_id := slave_id
        auto_reconnect := auto_reconnect
        reconnect_delay := reconnect_delay
        max_reconnect_attempts := max_reconnect_attempts
        mock_mode := mock_mode
        connected := false
        client := false
        mock_registers := []
        last_error := .noError
        open_calls := 0
      }

/-! ## Specification-side predicates and concrete fixtures -/

/-- The claimed lock discipline for one operation trace: a single lock
acquisition opens the trace, the matching release closes it, and no other lock
event occurs (exactly two lock events in total). -/
def singleLockSpan (t : List Event) : Prop :=
  t.head? = some .lockAcquire ∧ t.getLast? = some .lockRelease ∧
  t.countP Event.isLock = 2

instance (t : List Event) : Decidable (singleLockSpan t) := by
  unfold singleLockSpan; infer_instance

/-- The configuration domains `_validate_config` enforces, restated from the
specification (protocol name, slave id in 1..247, listed baud rates, data bits
7 or 8, parity N/E/O, stop bits 1 or 2).  `timeout` is absent deliberately:
the code never validates it. -/
def validatedFieldsOk (protocol : String) (slave_id baudrate bytesize : Int)
    (parity : String) (stopbits : Int) : Prop :=
  (pyUpper protocol = "TCP" ∨ pyUpper protocol = "RTU") ∧
  (1 ≤ slave_id ∧ slave_id ≤ 247) ∧
  baudrate ∈ valid_baudrates ∧
  (bytesize = 7 ∨ bytesize = 8) ∧
  (pyUpper parity = "N" ∨ pyUpper parity = "E" ∨ pyUpper parity = "O") ∧
  (stopbits = 1 ∨ stopbits = 2)

/-- A world whose transport never opens, whose register calls all fail, and
whose mock random source is constantly zero. -/
def failWorld : WorldModel where
  open_ok := fun _ => false
  close_raises := false
  read_holding_response := fun _ _ => .raisesModbus "transport indisponible"
  read_input_response := fun _ _ => .raisesModbus "transport indisponible"
  write_response := fun _ _ => .raisesModbus "transport indisponible"
  write_multi_response := fun _ _ => .raisesModbus "transport indisponible"
  rand := fun _ => 0

/-- A freshly constructed non-mock TCP session (the state `__init__` builds
with default reconnect settings and `max_reconnect_attempts = 3`). -/
def baseState : DriverState where
  protocol := .TCP
  slave_id := 1
  auto_reconnect := false
  reconnect_delay := 0
  max_reconnect_attempts := 3
  mock_mode := false
  connected := false
  client := false
  mock_registers := []
  last_error := .noError
  open_calls := 0

/-- A connected mock-mode session. -/
def mockSession : DriverState := { baseState with mock_mode := true, connected := true }

/-- A connected non-mock session holding a transport handle. -/
def connState : DriverState := { baseState with connected := true, client := true }

/-- A Disconnected session with auto-reconnect, 3 attempts, no delay. -/
def c1State : DriverState := { baseState with auto_reconnect := true }

/-- A transport whose holding-register read returns a protocol error response
carrying device exception code 2. -/
def c2World : WorldModel :=
  { failWorld with read_holding_response := fun _ _ => .errorResponse (some 2) }

/-- A connected non-mock session with a previously recorded error. -/
def c3State : DriverState :=
  { baseState with
    connected := true
    client := true
    last_error := ⟨true, 5, "ancienne erreur"⟩ }

/-- A transport whose holding-register read succeeds with value 7. -/
def c3World : WorldModel :=
  { failWorld with read_holding_response := fun _ _ => .ok [7] }

/-- A Disconnected auto-reconnect mock session with a stored register at 5. -/
def c5State : DriverState :=
  { baseState with
    mock_mode := true
    auto_reconnect := true
    mock_registers := [(5, 7)] }

/-- A transport whose `close()` raises. -/
def c6World : WorldModel := { failWorld with close_raises := true }

/-- Discriminator for the ConfigurationError kind. -/
def errIsConfig : SA32Error → Bool
  | .configurationError _ => true
  | _ => false

/-! ## Helper lemmas for the mock round trip -/

@[simp] theorem mapLookup_insert_self (m : List (Nat × Nat)) (a v : Nat) :
    mapLookup (mapInsert m a v) a = some v := by
  induction m with
  | nil => simp [mapInsert, mapLookup]
  | cons hd t ih =>
    obtain ⟨k, w⟩ := hd
    by_cases h : k = a <;> simp [mapInsert, mapLookup, h, ih]

theorem mapLookup_insert_ne (m : List (Nat × Nat)) (a v b : Nat) (h : b ≠ a) :
    mapLookup (mapInsert m a v) b = mapLookup m b := by
  induction m with
  | nil => simp [mapInsert, mapLookup, Ne.symm h]
  | cons hd t ih =>
    obtain ⟨k, w⟩ := hd
    by_cases hk : k = a
    · subst hk
      simp [mapInsert, mapLookup, Ne.symm h]
    · simp only [mapInsert, if_neg hk]
      by_cases hb : k = b <;> simp [mapLookup, hb, ih]

theorem mockWriteLoop_lookup_lt (vs : List Nat) (m : List (Nat × Nat)) (a b : Nat)
    (h : b < a) : mapLookup (mockWriteLoop m a vs) b = mapLookup m b := by
  induction vs generalizing m a with
  | nil => rfl
  | cons v t ih =>
    show mapLookup (mockWriteLoop (mapInsert m a v) (a + 1) t) b = _
    rw [ih (mapInsert m a v) (a + 1) (Nat.lt_succ_of_lt h)]
    exact mapLookup_insert_ne m a v b (Nat.ne_of_lt h)

theorem mockReadLoop_after_write (o : WorldModel) (vs : List Nat) (m : List (Nat × Nat))
    (a : Nat) :
    mockReadLoop o a vs.length (mockWriteLoop m a vs) = (vs, mockWriteLoop m a vs) := by
  induction vs generalizing m a with
  | nil => rfl
  | cons v t ih =>
    have hlook : mapLookup (mockWriteLoop (mapInsert m a v) (a + 1) t) a = some v := by
      rw [mockWriteLoop_lookup_lt t (mapInsert m a v) (a + 1) a (Nat.lt_succ_self a)]
      exact mapLookup_insert_self m a v
    show mockReadLoop o a (t.length + 1) (mockWriteLoop (mapInsert m a v) (a + 1) t) =
      (v :: t, mockWriteLoop (mapInsert m a v) (a + 1) t)
    simp only [mockReadLoop, hlook, Option.getD_some, ih (mapInsert m a v) (a + 1)]

/-! ## Claims C8, C9, C10 -/

theorem pairSplit_div (x y : Nat) (hy : y < 256) : (x * 256 + y) / 256 = x := by omega

theorem pairSplit_mod (x y : Nat) (hy : y < 256) : (x * 256 + y) % 256 = y := by omega

/-- Claim C8: for every finite 32-bit float bit pattern `b` and every byte
order and word order, the payload builder encodes `b` into exactly two 16-bit
registers and the payload decoder with the same orders reproduces `b`
bit-exactly. -/
theorem c8_float_roundtrip (bo wo : ByteOrder) (b : Nat) (hb : b < 4294967296)
    (hfin : isFiniteF32 b) :
    (encode_32bit_float bo wo b).length = 2 ∧
    decode_32bit_float bo wo (encode_32bit_float bo wo b) = b := by
  cases bo
  case big =>
    refine ⟨rfl, ?_⟩
    simp only [decode_32bit_float, encode_32bit_float, packFloat, to_registers,
      registersToPayload, unpackFloat, List.getD_cons_zero, List.getD_cons_succ]
    rw [pairSplit_div (b / 16777216 % 256) (b / 65536 % 256) (by omega),
      pairSplit_mod (b / 16777216 % 256) (b / 65536 % 256) (by omega),
      pairSplit_div (b / 256 % 256) (b % 256) (by omega),
      pairSplit_mod (b / 256 % 256) (b % 256) (by omega)]
    omega
  case little =>
    refine ⟨rfl, ?_⟩
    simp only [decode_32bit_float, encode_32bit_float, packFloat, to_registers,
      registersToPayload, unpackFloat, List.getD_cons_zero, List.getD_cons_succ]
    rw [pairSplit_div (b % 256) (b / 256 % 256) (by omega),
      pairSplit_mod (b % 256) (b / 256 % 256) (by omega),
      pairSplit_div (b / 65536 % 256) (b / 16777216 % 256) (by omega),
      pairSplit_mod (b / 65536 % 256) (b / 16777216 % 256) (by omega)]
    omega

/-- Witness for C8 at the bit pattern of 3.14159 (0x40490FDB). -/
theorem c8_float_roundtrip_witness :
    (1078530011 : Nat) < 4294967296 ∧ isFiniteF32 1078530011 ∧
    ((encode_32bit_float .big .big 1078530011).length = 2 ∧
      decode_32bit_float .big .big (encode_32bit_float .big .big 1078530011) = 1078530011) :=
  ⟨by decide, by decide, c8_float_roundtrip .big .big 1078530011 (by decide) (by decide)⟩

/-- Claim C9: on a connected mock-mode session, writing a non-empty sequence of
16-bit values with `write_registers` and then reading the same span with
`read_holding_registers` succeeds and returns exactly that sequence. -/
theorem c9_mock_write_read_roundtrip (o : WorldModel) (s : DriverState) (address : Nat)
    (vs : List Nat) (hmock : s.mock_mode = true) (hconn : s.connected = true)
    (hne : vs ≠ []) (h16 : ∀ v ∈ vs, v < 65536) :
    (write_registers o s address vs).1 = .ok true ∧
    (read_holding_registers o (write_registers o s address vs).2.1 address vs.length).1 =
      .ok vs := by
  simp only [write_registers, read_holding_registers, ensure_connected, hconn, hmock,
    if_true, mock_read_registers, mockReadLoop_after_write]
  simp [mock_read_registers, mockReadLoop_after_write]

/-- Witness for C9: write [111, 222] at 2000 on a connected mock session, read
it back. -/
theorem c9_mock_write_read_roundtrip_witness :
    mockSession.mock_mode = true ∧ mockSession.connected = true ∧
    ([111, 222] : List Nat) ≠ [] ∧ (∀ v ∈ ([111, 222] : List Nat), v < 65536) ∧
    ((write_registers failWorld mockSession 2000 [111, 222]).1 = .ok true ∧
      (read_holding_registers failWorld (write_registers failWorld mockSession 2000 [111, 222]).2.1
        2000 ([111, 222] : List Nat).length).1 = .ok [111, 222]) :=
  ⟨rfl, rfl, by decide, by decide,
    c9_mock_write_read_roundtrip failWorld mockSession 2000 [111, 222] rfl rfl
      (by decide) (by decide)⟩

/-- Claim C10: on a connected mock-mode session, a holding-register read with
count 0 does not fail: it returns the empty list, fires DataReceived with an
empty values field, and leaves the mock register map unchanged. -/
theorem c10_read_count_zero (o : WorldModel) (s : DriverState) (address : Nat)
    (hmock : s.mock_mode = true) (hconn : s.connected = true) :
    (read_holding_registers o s address 0).1 = .ok [] ∧
    (read_holding_registers o s address 0).2.1.mock_registers = s.mock_registers ∧
    Event.onDataReceived address [] ∈ (read_holding_registers o s address 0).2.2 := by
  simp [read_holding_registers, ensure_connected, hconn, hmock, mock_read_registers,
    mockReadLoop]

/-- Witness for C10 at address 1000 on a connected mock session. -/
theorem c10_read_count_zero_witness :
    mockSession.mock_mode = true ∧ mockSession.connected = true ∧
    ((read_holding_registers failWorld mockSession 1000 0).1 = .ok [] ∧
      (read_holding_registers failWorld mockSession 1000 0).2.1.mock_registers =
        mockSession.mock_registers ∧
      Event.onDataReceived 1000 [] ∈ (read_holding_registers failWorld mockSession 1000 0).2.2) :=
  ⟨rfl, rfl, c10_read_count_zero failWorld mockSession 1000 rfl rfl⟩

/-! ## Claim C1: reconnect exhaustion -/


/-- Claim C1 (code bug): on a Disconnected auto-reconnect session whose
transport never opens (`max_reconnect_attempts = 3`, `reconnect_delay = 0`),
`_ensure_connected` does make exactly 3 transport open attempts, but it then
returns normally instead of raising `SA32ConnectionError`: `_attempt_reconnect`
returns `False` and `_ensure_connected` discards that result, contradicting its
own docstring.  The register operation that called it then proceeds without a
connection and fails as a `SA32CommunicationError`, not a ConnectionError. -/
theorem c1_reconnect_exhaustion_swallowed :
    isOkB (ensure_connected failWorld c1State).1 = true ∧
    isConnectionErrorB (ensure_connected failWorld c1State).1 = false ∧
    (ensure_connected failWorld c1State).2.1.open_calls = 3 ∧
    (ensure_connected failWorld c1State).2.2.countP Event.isOpen = 3 ∧
    isCommunicationErrorB (read_holding_registers failWorld c1State 1000 1).1 = true ∧
    isConnectionErrorB (read_holding_registers failWorld c1State 1000 1).1 = false := by
  decide

/-! ## Claim C2: device exception code is overwritten -/


/-- Claim C2 (code bug): on a connected non-mock session receiving an error
response with device exception code 2, the read does fail with
`SA32CommunicationError` and an Error event fires, but the final LastError code
is -3, not the device code: the `SA32CommunicationError` raised in the
`isError` branch (which had just stored code 2) is re-caught by the generic
`except Exception` handler, which overwrites LastError. -/
theorem c2_exception_code_overwritten :
    isCommunicationErrorB (read_holding_registers c2World connState 10 2).1 = true ∧
    (read_holding_registers c2World connState 10 2).2.1.last_error.status = true ∧
    (read_holding_registers c2World connState 10 2).2.1.last_error.code = -3 ∧
    ¬ (read_holding_registers c2World connState 10 2).2.1.last_error.code = 2 ∧
    (read_holding_registers c2World connState 10 2).2.2.countP Event.isErrorEvent = 1 := by
  decide

/-! ## Claim C3: LastError across successful operations -/


/-- Claim C3 refuted at a concrete input: a session has a recorded LastError
(`present = true`), a holding-register read succeeds, and afterwards the
LastError slot is the no-error value: the successful non-mock read implicitly
cleared it (`self._last_error = EquipmentError()` on the success path). -/
theorem c3_success_clears_last_error :
    c3State.last_error.status = true ∧
    isOkB (read_holding_registers c3World c3State 100 1).1 = true ∧
    (read_holding_registers c3World c3State 100 1).2.1.last_error.status = false ∧
    ¬ (read_holding_registers c3World c3State 100 1).2.1.last_error = c3State.last_error := by
  decide

/-- Claim C3 amended: on a connected session, successful mock-mode operations
leave the LastError slot unchanged, but a successful non-mock read or write
resets it to the no-error state; `clear_error` also resets it. -/
theorem c3_last_error_amended (o : WorldModel) (s : DriverState) (a c v : Nat)
    (vs : List Nat) (hconn : s.connected = true) :
    (s.mock_mode = true →
      (read_holding_registers o s a c).2.1.last_error = s.last_error ∧
      (read_input_registers o s a c).2.1.last_error = s.last_error ∧
      (write_register o s a v).2.1.last_error = s.last_error ∧
      (write_registers o s a vs).2.1.last_error = s.last_error) ∧
    (s.mock_mode = false →
      (isOkB (read_holding_registers o s a c).1 = true →
        (read_holding_registers o s a c).2.1.last_error = .noError) ∧
      (isOkB (write_register o s a v).1 = true →
        (write_register o s a v).2.1.last_error = .noError)) ∧
    (clear_error s).last_error = .noError := by
  refine ⟨fun hmk => ?_, fun hmk => ⟨?_, ?_⟩, rfl⟩
  · simp [read_holding_registers, read_input_registers, write_register, write_registers,
      ensure_connected, hconn, hmk, mock_read_registers, mock_write_register]
  · simp only [read_holding_registers, ensure_connected, hconn, if_true, hmk,
      Bool.false_eq_true, if_false]
    rcases o.read_holding_response a c <;> simp [isOkB]
  · simp only [write_register, ensure_connected, hconn, if_true, hmk,
      Bool.false_eq_true, if_false]
    rcases o.write_response a v <;> simp [isOkB]

/-- Witness for the amended C3: mock operations on a connected mock session
keep LastError, and clear_error resets it. -/
theorem c3_last_error_amended_witness :
    mockSession.connected = true ∧
    (read_holding_registers failWorld mockSession 1 1).2.1.last_error =
      mockSession.last_error ∧
    (clear_error mockSession).last_error = .noError :=
  ⟨rfl, ((c3_last_error_amended failWorld mockSession 1 1 1 [] rfl).1 rfl).1,
    (c3_last_error_amended failWorld mockSession 1 1 1 [] rfl).2.2⟩

/-! ## Claim C4: Connected iff handle present -/

/-- Claim C4 refuted at a concrete input: a fresh non-mock session whose
transport open fails ends Disconnected with the transport handle still
present (`self._client` is assigned before the open attempt and never dropped
on failure), so Connected and handle presence are not equivalent. -/
theorem c4_failed_connect_leaves_handle :
    isConnectionErrorB (connect failWorld baseState).1 = true ∧
    (connect failWorld baseState).2.1.connected = false ∧
    (connect failWorld baseState).2.1.client = true := by
  decide

theorem connect_preserves_inv (o : WorldModel) (s : DriverState)
    (hm : s.mock_mode = false) (hinv : s.connected = true → s.client = true) :
    (connect o s).2.1.mock_mode = false ∧
    ((connect o s).2.1.connected = true → (connect o s).2.1.client = true) := by
  unfold connect
  by_cases hc : s.connected = true
  · simpa [hc] using ⟨hm, hinv hc⟩
  · simp only [hc, if_false, hm, Bool.false_eq_true]
    by_cases ho : o.open_ok s.open_calls = true <;> simp [ho, hm, hc]

theorem attemptLoop_preserves_inv (o : WorldModel) (n : Nat) (s : DriverState)
    (hm : s.mock_mode = false) (hinv : s.connected = true → s.client = true) :
    (attemptLoop o n s).2.1.mock_mode = false ∧
    ((attemptLoop o n s).2.1.connected = true → (attemptLoop o n s).2.1.client = true) := by
  induction n generalizing s with
  | zero => exact ⟨hm, hinv⟩
  | succ n ih =>
    have hc := connect_preserves_inv o s hm hinv
    unfold attemptLoop
    rcases hr : connect o s with ⟨r, s1, ev⟩
    rw [hr] at hc
    rcases r with e | b
    · simpa using ih s1 hc.1 hc.2
    · simpa using hc

theorem ensure_preserves_inv (o : WorldModel) (s : DriverState)
    (hm : s.mock_mode = false) (hinv : s.connected = true → s.client = true) :
    (ensure_connected o s).2.1.mock_mode = false ∧
    ((ensure_connected o s).2.1.connected = true → (ensure_connected o s).2.1.client = true) := by
  unfold ensure_connected
  by_cases hc : s.connected = true
  · simpa [hc] using ⟨hm, hinv hc⟩
  · by_cases ha : s.auto_reconnect = true
    · simpa [hc, ha, attempt_reconnect] using
        attemptLoop_preserves_inv o s.max_reconnect_attempts s hm hinv
    · refine ⟨by simpa [hc, ha] using hm, ?_⟩
      simp [hc, ha]

theorem disconnect_preserves_inv (o : WorldModel) (s : DriverState)
    (hm : s.mock_mode = false) (hinv : s.connected = true → s.client = true) :
    (disconnect o s).2.1.connected = true → (disconnect o s).2.1.client = true := by
  unfold disconnect
  by_cases hc : s.connected = true
  · simp only [hc, not_true, if_false, hm, Bool.false_eq_true]
    by_cases hb : (s.client && o.close_raises) = true <;> simp [hb]
  · simpa [hc] using hinv

theorem read_holding_preserves_inv (o : WorldModel) (s : DriverState) (a c : Nat)
    (hm : s.mock_mode = false) (hinv : s.connected = true → s.client = true) :
    (read_holding_registers o s a c).2.1.connected = true →
      (read_holding_registers o s a c).2.1.client = true := by
  have he := ensure_preserves_inv o s hm hinv
  unfold read_holding_registers
  rcases hr : ensure_connected o s with ⟨r, s1, ev⟩
  rw [hr] at he
  rcases r with e | u
  · exact he.2
  · simp only
    rcases hmb : s1.mock_mode
    case false =>
      simp only [hmb, Bool.false_eq_true, if_false]
      rcases o.read_holding_response a c <;> simpa using he.2
    case true => exact absurd he.1 (by simp [hmb])

theorem read_input_preserves_inv (o : WorldModel) (s : DriverState) (a c : Nat)
    (hm : s.mock_mode = false) (hinv : s.connected = true → s.client = true) :
    (read_input_registers o s a c).2.1.connected = true →
      (read_input_registers o s a c).2.1.client = true := by
  have he := ensure_preserves_inv o s hm hinv
  unfold read_input_registers
  rcases hr : ensure_connected o s with ⟨r, s1, ev⟩
  rw [hr] at he
  rcases r with e | u
  · exact he.2
  · simp only
    rcases hmb : s1.mock_mode
    case false =>
      simp only [hmb, Bool.false_eq_true, if_false]
      rcases o.read_input_response a c <;> simpa using he.2
    case true => exact absurd he.1 (by simp [hmb])

theorem write_register_preserves_inv (o : WorldModel) (s : DriverState) (a v : Nat)
    (hm : s.mock_mode = false) (hinv : s.connected = true → s.client = true) :
    (write_register o s a v).2.1.connected = true →
      (write_register o s a v).2.1.client = true := by
  have he := ensure_preserves_inv o s hm hinv
  unfold write_register
  rcases hr : ensure_connected o s with ⟨r, s1, ev⟩
  rw [hr] at he
  rcases r with e | u
  · exact he.2
  · simp only
    rcases hmb : s1.mock_mode
    case false =>
      simp only [hmb, Bool.false_eq_true, if_false]
      rcases o.write_response a v <;> simpa using he.2
    case true => exact absurd he.1 (by simp [hmb])

theorem write_registers_preserves_inv (o : WorldModel) (s : DriverState) (a : Nat)
    (vs : List Nat) (hm : s.mock_mode = false)
    (hinv : s.connected = true → s.client = true) :
    (write_registers o s a vs).2.1.connected = true →
      (write_registers o s a vs).2.1.client = true := by
  have he := ensure_preserves_inv o s hm hinv
  unfold write_registers
  rcases hr : ensure_connected o s with ⟨r, s1, ev⟩
  rw [hr] at he
  rcases r with e | u
  · exact he.2
  · simp only
    rcases hmb : s1.mock_mode
    case false =>
      simp only [hmb, Bool.false_eq_true, if_false]
      rcases o.write_multi_response a vs <;> simpa using he.2
    case true => exact absurd he.1 (by simp [hmb])

/-- Claim C4 amended: for non-mock sessions the direction Connected implies
transport-handle present is an invariant of every public operation (connect,
disconnect, reads, writes, on success and failure paths alike); the converse
direction is not invariant — a failed `connect()` leaves the handle present
while Disconnected. -/
theorem c4_handle_invariant_amended (o : WorldModel) (s : DriverState) (a c v : Nat)
    (vs : List Nat) (hm : s.mock_mode = false)
    (hinv : s.connected = true → s.client = true) :
    ((connect o s).2.1.connected = true → (connect o s).2.1.client = true) ∧
    ((disconnect o s).2.1.connected = true → (disconnect o s).2.1.client = true) ∧
    ((read_holding_registers o s a c).2.1.connected = true →
      (read_holding_registers o s a c).2.1.client = true) ∧
    ((read_input_registers o s a c).2.1.connected = true →
      (read_input_registers o s a c).2.1.client = true) ∧
    ((write_register o s a v).2.1.connected = true →
      (write_register o s a v).2.1.client = true) ∧
    ((write_registers o s a vs).2.1.connected = true →
      (write_registers o s a vs).2.1.client = true) :=
  ⟨(connect_preserves_inv o s hm hinv).2, disconnect_preserves_inv o s hm hinv,
    read_holding_preserves_inv o s a c hm hinv, read_input_preserves_inv o s a c hm hinv,
    write_register_preserves_inv o s a v hm hinv,
    write_registers_preserves_inv o s a vs hm hinv⟩

/-- Witness for the amended C4 on a fresh non-mock session against a dead
transport: after the (failed) connect, Connected still implies handle
present. -/
theorem c4_handle_invariant_amended_witness :
    baseState.mock_mode = false ∧ (baseState.connected = true → baseState.client = true) ∧
    ((connect failWorld baseState).2.1.connected = true →
      (connect failWorld baseState).2.1.client = true) :=
  ⟨rfl, by decide,
    (c4_handle_invariant_amended failWorld baseState 1 1 1 [] rfl (by decide)).1⟩

/-! ## Claim C5: lock span of one operation -/


/-- Claim C5 refuted at a concrete input: on a Disconnected auto-reconnect
session, the reconnect loop triggered by `_ensure_connected()` runs before the
operation acquires the lock (`self._ensure_connected()` precedes
`with self._lock` in the source), and the internal `connect()` takes its own
acquisition: the read's trace holds four lock events in two separate
acquisitions, not one spanning acquisition. -/
theorem c5_reconnect_outside_lock :
    ¬ singleLockSpan (read_holding_registers failWorld c5State 5 1).2.2 ∧
    (read_holding_registers failWorld c5State 5 1).2.2.countP Event.isLock = 4 := by
  decide

theorem singleLockSpan_pair : singleLockSpan [Event.lockAcquire, Event.lockRelease] := by
  decide

theorem singleLockSpan_triple (x : Event) (hx : x.isLock = false) :
    singleLockSpan [Event.lockAcquire, x, Event.lockRelease] := by
  refine ⟨rfl, rfl, ?_⟩
  simp only [List.countP_cons, List.countP_nil, hx]
  decide

theorem read_holding_lock_span (o : WorldModel) (s : DriverState) (a c : Nat)
    (hconn : s.connected = true) :
    singleLockSpan (read_holding_registers o s a c).2.2 := by
  simp only [read_holding_registers, ensure_connected, hconn, if_true]
  rcases hmb : s.mock_mode
  case false =>
    simp only [hmb, Bool.false_eq_true, if_false]
    rcases o.read_holding_response a c <;>
      · simp only [List.nil_append]
        exact singleLockSpan_triple _ rfl
  case true =>
    simp only [hmb, if_true, List.nil_append]
    exact singleLockSpan_triple _ rfl

theorem read_input_lock_span (o : WorldModel) (s : DriverState) (a c : Nat)
    (hconn : s.connected = true) :
    singleLockSpan (read_input_registers o s a c).2.2 := by
  simp only [read_input_registers, ensure_connected, hconn, if_true]
  rcases hmb : s.mock_mode
  case false =>
    simp only [hmb, Bool.false_eq_true, if_false]
    rcases o.read_input_response a c <;>
      · simp only [List.nil_append]
        exact singleLockSpan_triple _ rfl
  case true =>
    simp only [hmb, if_true, List.nil_append]
    exact singleLockSpan_triple _ rfl

theorem write_register_lock_span (o : WorldModel) (s : DriverState) (a v : Nat)
    (hconn : s.connected = true) :
    singleLockSpan (write_register o s a v).2.2 := by
  simp only [write_register, ensure_connected, hconn, if_true]
  rcases hmb : s.mock_mode
  case false =>
    simp only [hmb, Bool.false_eq_true, if_false]
    rcases o.write_response a v
    case ok => simpa only [List.nil_append] using singleLockSpan_pair
    all_goals
      simp only [List.nil_append]
      exact singleLockSpan_triple _ rfl
  case true =>
    simpa only [hmb, if_true, List.nil_append] using singleLockSpan_pair

theorem write_registers_lock_span (o : WorldModel) (s : DriverState) (a : Nat)
    (vs : List Nat) (hconn : s.connected = true) :
    singleLockSpan (write_registers o s a vs).2.2 := by
  simp only [write_registers, ensure_connected, hconn, if_true]
  rcases hmb : s.mock_mode
  case false =>
    simp only [hmb, Bool.false_eq_true, if_false]
    rcases o.write_multi_response a vs
    case ok => simpa only [List.nil_append] using singleLockSpan_pair
    all_goals
      simp only [List.nil_append]
      exact singleLockSpan_triple _ rfl
  case true =>
    simpa only [hmb, if_true, List.nil_append] using singleLockSpan_pair

/-- Claim C5 amended: the single lock acquisition covers the data phase of each
register operation — for a session that is already Connected the operation's
whole trace is one bracketed lock span — but `_ensure_connected()`, including
any reconnect loop whose internal `connect()` calls take their own separate
acquisitions, runs before that acquisition rather than inside it. -/
theorem c5_lock_span_amended (o : WorldModel) (s : DriverState) (a c v : Nat)
    (vs : List Nat) (hconn : s.connected = true) :
    singleLockSpan (read_holding_registers o s a c).2.2 ∧
    singleLockSpan (read_input_registers o s a c).2.2 ∧
    singleLockSpan (write_register o s a v).2.2 ∧
    singleLockSpan (write_registers o s a vs).2.2 :=
  ⟨read_holding_lock_span o s a c hconn, read_input_lock_span o s a c hconn,
    write_register_lock_span o s a v hconn, write_registers_lock_span o s a vs hconn⟩

/-- Witness for the amended C5 on a connected session against the dead
transport. -/
theorem c5_lock_span_amended_witness :
    connState.connected = true ∧
    singleLockSpan (read_holding_registers failWorld connState 1 1).2.2 :=
  ⟨rfl, (c5_lock_span_amended failWorld connState 1 1 1 [] rfl).1⟩

/-! ## Claim C6: disconnect teardown -/


/-- Claim C6 refuted at a concrete input: on a Connected non-mock session whose
transport `close()` raises, `disconnect()` does force Disconnected and drops
the handle, but the Disconnect event is not fired — the `except` path skips
`_trigger_callbacks` — contradicting the claim that the event fires regardless
of the close outcome. -/
theorem c6_close_raise_skips_event :
    (disconnect c6World connState).2.1.connected = false ∧
    (disconnect c6World connState).2.1.client = false ∧
    Event.onDisconnect ∉ (disconnect c6World connState).2.2 := by
  decide

/-- Claim C6 amended: on a Connected non-mock session, `disconnect()` never
raises, always forces Disconnected and drops the transport handle; the
Disconnect event fires exactly when closing did not raise (a raising close
skips it). -/
theorem c6_disconnect_amended (o : WorldModel) (s : DriverState)
    (hconn : s.connected = true) (hm : s.mock_mode = false) :
    (disconnect o s).1 = .ok () ∧
    (disconnect o s).2.1.connected = false ∧
    (disconnect o s).2.1.client = false ∧
    (Event.onDisconnect ∈ (disconnect o s).2.2 ↔ (s.client && o.close_raises) = false) := by
  unfold disconnect
  by_cases hb : (s.client && o.close_raises) = true <;> simp [hconn, hm, hb]

/-- Witness for the amended C6: a Connected session with a well-behaved close
fires the Disconnect event and ends up Disconnected without a handle. -/
theorem c6_disconnect_amended_witness :
    connState.connected = true ∧ connState.mock_mode = false ∧
    ((disconnect failWorld connState).1 = .ok () ∧
      (disconnect failWorld connState).2.1.connected = false ∧
      (disconnect failWorld connState).2.1.client = false ∧
      (Event.onDisconnect ∈ (disconnect failWorld connState).2.2 ↔
        (connState.client && failWorld.close_raises) = false)) :=
  ⟨rfl, rfl, c6_disconnect_amended failWorld connState rfl rfl⟩

/-! ## Claim C7: construction-time validation -/

/-- Claim C7 refuted at a concrete input: constructing a session with
`timeout = -1` (all other parameters valid) succeeds — `_validate_config` never
receives or checks the timeout, so no ConfigurationError is raised. -/
theorem c7_timeout_not_validated :
    isOkB (mkDriver true "TCP" 1 9600 "N" 1 8 (-1) false 5 3 false) = true ∧
    isConfigurationErrorB (mkDriver true "TCP" 1 9600 "N" 1 8 (-1) false 5 3 false) = false := by
  decide

theorem validate_config_ok_iff (protocol parity : String)
    (slave_id baudrate bytesize stopbits : Int) :
    validate_config protocol slave_id baudrate bytesize parity stopbits = .ok () ↔
      validatedFieldsOk protocol slave_id baudrate bytesize parity stopbits := by
  unfold validate_config validatedFieldsOk
  split_ifs with h1 h2 h3 h4 h5 h6 <;> simp_all


theorem isConfigurationErrorB_error {α : Type} (e : SA32Error) :
    isConfigurationErrorB (Except.error e : Except SA32Error α) = errIsConfig e := by
  cases e <;> rfl

theorem validate_config_error_config (protocol parity : String)
    (slave_id baudrate bytesize stopbits : Int) (e : SA32Error)
    (h : validate_config protocol slave_id baudrate bytesize parity stopbits = .error e) :
    errIsConfig e = true := by
  unfold validate_config at h
  split_ifs at h <;>
    first
      | (injection h with he
         subst he
         rfl)
      | exact Except.noConfusion h

/-- Claim C7 amended: with pymodbus available, construction eagerly validates
protocol, slave id, baud rate, bytesize, parity and stop bits — it succeeds iff
those six fields are valid, and fails with a ConfigurationError iff one of them
is invalid; the timeout is not validated, so any timeout (including values
at most 0) is accepted when the validated fields are valid. -/
theorem c7_validation_amended (protocol parity : String)
    (slave_id baudrate stopbits bytesize timeout : Int) (ar mock : Bool) (rd : Int)
    (mra : Nat) :
    (isOkB (mkDriver true protocol slave_id baudrate parity stopbits bytesize timeout
        ar rd mra mock) = true ↔
      validatedFieldsOk protocol slave_id baudrate bytesize parity stopbits) ∧
    (isConfigurationErrorB (mkDriver true protocol slave_id baudrate parity stopbits bytesize
        timeout ar rd mra mock) = true ↔
      ¬ validatedFieldsOk protocol slave_id baudrate bytesize parity stopbits) := by
  have hv := validate_config_ok_iff protocol parity slave_id baudrate bytesize stopbits
  unfold mkDriver
  rw [if_neg (by simp)]
  rcases he : validate_config protocol slave_id baudrate bytesize parity stopbits with e | u
  · rw [he] at hv
    have hcfg := validate_config_error_config protocol parity slave_id baudrate bytesize
      stopbits e he
    have hnv : ¬ validatedFieldsOk protocol slave_id baudrate bytesize parity stopbits := by
      intro hval
      exact absurd (hv.mpr hval) (by simp)
    refine ⟨?_, ?_⟩
    · simp only [isOkB]
      exact iff_of_false (by simp) hnv
    · rw [isConfigurationErrorB_error, hcfg]
      exact iff_of_true (by trivial) hnv
  · rw [he] at hv
    cases u
    have hval := hv.mp rfl
    refine ⟨?_, ?_⟩
    · simp only [isOkB]
      exact iff_of_true (by trivial) hval
    · simp only [isConfigurationErrorB]
      exact iff_of_false (by simp) (not_not_intro hval)

end SA32
